import Mathlib

/-!
Verification development for the Synapse bridge SDK's route-resolution and
transaction-shape selection engine.  The definitions below are a shallow
embedding of `Bridge.SynapseBridge` (estimation, transaction building, token
argument resolution) together with `Networks.Network.supportsToken` and the
required-confirmation table.  Amounts are `Int` (ethers `BigNumber` values),
chain ids are `Nat`, and external collaborators (fee oracle, pool math,
registry data not present in the excerpted sources) are supplied through an
explicit `Env` record so that the network calls a computation issues can be
recorded in a trace.
-/

/-- Swap-type categories of tokens (`SwapType` in the SDK). -/
inductive SwapType
  | usd
  | syn
  | eth
  | high
  | dog
  | jump
  | frax
  | nfd
  | ohm
  | avax
  | movr
  | gmx
  deriving DecidableEq, Repr

/-- Token data: stable logical id, symbol, swap-type category, wrapped and
mint/burn flags, the id of the underlying token for wrapped representations,
and per-chain address / decimals / wrapper-address maps. -/
structure Token where
  id : Nat
  symbol : String
  swapType : SwapType
  isWrappedToken : Bool
  isMintBurn : Bool
  underlyingId : Nat
  address : Nat → String
  decimals : Nat → Nat
  wrapperAddress : Nat → String

/-- Token equality is by logical id, not by address (`Token.isEqual`). -/
def Token.isEqual (a b : Token) : Bool :=
  a.id == b.id

namespace ChainId

def ETH : Nat := 1

def OPTIMISM : Nat := 10

def BSC : Nat := 56

def POLYGON : Nat := 137

def FANTOM : Nat := 250

def BOBA : Nat := 288

def MOONBEAM : Nat := 1284

def MOONRIVER : Nat := 1285

def ARBITRUM : Nat := 42161

def AVALANCHE : Nat := 43114

def HARMONY : Nat := 1666600000

end ChainId

/-- Modelled from the spec: the per-chain address map of the token registry
(`@tokens` module, not present in the excerpted sources).  Addresses only need
to be distinct per (token, chain); the engine treats them opaquely. -/
def defaultAddress (sym : String) : Nat → String :=
  fun c => sym ++ "@" ++ toString c

namespace Tokens

/-! Modelled from the spec: the fixed token catalog (`Tokens` module, not
present in the excerpted sources).  Ids are distinct; flags follow the spec's
data model (mint/burn tokens such as the canonical stable asset NUSD and
bridge ETH representation NETH; AVWETH is the wrapped alias whose underlying
is WETH_E). -/

/-- Modelled from the spec: catalog entry for the SYN governance token. -/
def SYN : Token :=
  { id := 1, symbol := "SYN", swapType := .syn, isWrappedToken := false,
    isMintBurn := true, underlyingId := 0,
    address := defaultAddress "SYN", decimals := fun _ => 18,
    wrapperAddress := defaultAddress "SYNw" }

/-- Modelled from the spec: catalog entry for the canonical stable bridging asset nUSD. -/
def NUSD : Token :=
  { id := 2, symbol := "nUSD", swapType := .usd, isWrappedToken := false,
    isMintBurn := true, underlyingId := 0,
    address := defaultAddress "nUSD", decimals := fun _ => 18,
    wrapperAddress := defaultAddress "nUSDw" }

/-- Modelled from the spec: catalog entry for the canonical bridge ETH representation nETH. -/
def NETH : Token :=
  { id := 3, symbol := "nETH", swapType := .eth, isWrappedToken := false,
    isMintBurn := true, underlyingId := 0,
    address := defaultAddress "nETH", decimals := fun _ => 18,
    wrapperAddress := defaultAddress "nETHw" }

/-- Modelled from the spec: catalog entry for the HIGH mint/burn token. -/
def HIGH : Token :=
  { id := 4, symbol := "HIGH", swapType := .high, isWrappedToken := false,
    isMintBurn := true, underlyingId := 0,
    address := defaultAddress "HIGH", decimals := fun _ => 18,
    wrapperAddress := defaultAddress "HIGHw" }

/-- Modelled from the spec: catalog entry for the DOG mint/burn token. -/
def DOG : Token :=
  { id := 5, symbol := "DOG", swapType := .dog, isWrappedToken := false,
    isMintBurn := true, underlyingId := 0,
    address := defaultAddress "DOG", decimals := fun _ => 18,
    wrapperAddress := defaultAddress "DOGw" }

/-- Modelled from the spec: catalog entry for the FRAX mint/burn token. -/
def FRAX : Token :=
  { id := 6, symbol := "FRAX", swapType := .frax, isWrappedToken := false,
    isMintBurn := true, underlyingId := 0,
    address := defaultAddress "FRAX", decimals := fun _ => 18,
    wrapperAddress := defaultAddress "FRAXw" }

/-- Modelled from the spec: catalog entry for the GMX allow-listed special asset. -/
def GMX : Token :=
  { id := 7, symbol := "GMX", swapType := .gmx, isWrappedToken := false,
    isMintBurn := false, underlyingId := 0,
    address := defaultAddress "GMX", decimals := fun _ => 18,
    wrapperAddress := defaultAddress "GMXw" }

/-- Modelled from the spec: catalog entry for naked native ETH. -/
def ETH : Token :=
  { id := 8, symbol := "ETH", swapType := .eth, isWrappedToken := false,
    isMintBurn := false, underlyingId := 0,
    address := defaultAddress "ETH", decimals := fun _ => 18,
    wrapperAddress := defaultAddress "ETHw" }

/-- Modelled from the spec: catalog entry for canonical wrapped ETH. -/
def WETH : Token :=
  { id := 9, symbol := "WETH", swapType := .eth, isWrappedToken := false,
    isMintBurn := false, underlyingId := 0,
    address := defaultAddress "WETH", decimals := fun _ => 18,
    wrapperAddress := defaultAddress "WETHw" }

/-- Modelled from the spec: catalog entry for the Avalanche bridged WETH variant. -/
def WETH_E : Token :=
  { id := 10, symbol := "WETH.e", swapType := .eth, isWrappedToken := false,
    isMintBurn := true, underlyingId := 0,
    address := defaultAddress "WETH.e", decimals := fun _ => 18,
    wrapperAddress := defaultAddress "WETH.ew" }

/-- Modelled from the spec: catalog entry for the Aave wrapped alias of WETH_E. -/
def AVWETH : Token :=
  { id := 11, symbol := "avWETH", swapType := .eth, isWrappedToken := true,
    isMintBurn := false, underlyingId := WETH_E.id,
    address := defaultAddress "avWETH", decimals := fun _ => 18,
    wrapperAddress := defaultAddress "avWETHw" }

/-- Modelled from the spec: catalog entry for naked native AVAX. -/
def AVAX : Token :=
  { id := 12, symbol := "AVAX", swapType := .avax, isWrappedToken := false,
    isMintBurn := false, underlyingId := 0,
    address := defaultAddress "AVAX", decimals := fun _ => 18,
    wrapperAddress := defaultAddress "AVAXw" }

/-- Modelled from the spec: catalog entry for wrapped AVAX. -/
def WAVAX : Token :=
  { id := 13, symbol := "wAVAX", swapType := .avax, isWrappedToken := false,
    isMintBurn := false, underlyingId := 0,
    address := defaultAddress "wAVAX", decimals := fun _ => 18,
    wrapperAddress := defaultAddress "wAVAXw" }

/-- Modelled from the spec: catalog entry for naked native MOVR. -/
def MOVR : Token :=
  { id := 14, symbol := "MOVR", swapType := .movr, isWrappedToken := false,
    isMintBurn := false, underlyingId := 0,
    address := defaultAddress "MOVR", decimals := fun _ => 18,
    wrapperAddress := defaultAddress "MOVRw" }

/-- Modelled from the spec: catalog entry for wrapped MOVR. -/
def WMOVR : Token :=
  { id := 15, symbol := "wMOVR", swapType := .movr, isWrappedToken := false,
    isMintBurn := false, underlyingId := 0,
    address := defaultAddress "wMOVR", decimals := fun _ => 18,
    wrapperAddress := defaultAddress "wMOVRw" }

/-- Membership in the SDK's mint/burn token list (`Tokens.isMintBurnToken`),
carried here as a token attribute per the spec's data model. -/
def isMintBurnToken (t : Token) : Bool :=
  t.isMintBurn

end Tokens

/-- Request parameters for estimation (`BridgeParams`). -/
structure BridgeParams where
  tokenFrom : Token
  tokenTo : Token
  chainIdTo : Nat
  amountFrom : Int

/-- Request parameters for transaction building (`BridgeTransactionParams`). -/
structure BridgeTransactionParams extends BridgeParams where
  amountTo : Int
  addressTo : Option String

/-- Resolved token arguments (`BridgeTokenArgs`): pool token lists on both
chains, the (possibly rewritten) tokens, and their pool indices.  An index is
`-1` when `Array.prototype.findIndex` finds no match, exactly as in the
source. -/
structure BridgeTokenArgs where
  fromChainTokens : List Token
  toChainTokens : List Token
  tokenFrom : Token
  tokenTo : Token
  tokenIndexFrom : Int
  tokenIndexTo : Int

/-- Entry of `BridgeUtils.DepositIfChainTokens` (registry data not present in
the excerpted sources, carried in `Env`). -/
structure DepositIfChainArgs where
  chainId : Nat
  tokens : List Token
  depositEth : Bool
  altChainId : Option Nat

/-- Modelled from the spec: deployment configuration of the
SlippageCalculator (deadline windows and per-tier tolerance basis points are
deployment constants, not hardcoded business logic). -/
structure SlippageConfig where
  now : Int
  originWindow : Int
  bridgeWindow : Int
  lowBps : Int
  mediumBps : Int
  highBps : Int

/-- External collaborators and registry data consumed by the engine.  Fields
model, in order: `TokenSwap.bridgeSwapSupported`, the fee oracle
(`calculateSwapFee`, `none` on query failure), the canonical-chain liquidity
math (`calculateTokenAmount`), the pool swap math (`calculateSwapL2Zap`),
the liquidity-removal math (`calculateRemoveLiquidityOneToken`),
`TokenSwap.intermediateTokens`, the pool registry
(`SwapPools.bridgeSwappableTypePoolsByChain`, `none` when a chain/category
pair has no pool), `BridgeUtils.DepositIfChainTokens`, the membership lists
behind `BridgeUtils.isETHLikeToken` and `BridgeUtils.isL2ETHChain`, and the
slippage configuration. -/
structure Env where
  bridgeSwapSupported : Nat → Nat → Token → Token → Bool × String
  calculateSwapFee : String → Nat → Int → Option Int
  calculateTokenAmount : List Int → Bool → Int
  calculateSwapL2Zap : String → Int → Int → Int → Int
  calculateRemoveLiquidityOneToken : Int → Int → Int
  intermediateTokens : Nat → Token → Token × Token
  swapPools : Nat → SwapType → Option (List Token)
  depositIfChainTokens : List DepositIfChainArgs
  ethLikeTokenIds : List Nat
  l2ETHChains : List Nat
  slippageConfig : SlippageConfig

namespace BridgeUtils

/-- Modelled from the spec: `BridgeUtils.subBigNumSafe` subtracts the bridge
fee from the origin-side amount, clamped at zero (never negative). -/
def subBigNumSafe (a b : Int) : Int :=
  if a > b then a - b else 0

/-- Modelled from the spec: `BridgeUtils.isL2ETHChain` decides whether a
chain is a native-gas-equivalent (ETH-gas) peripheral chain; the member list
lives in `Env`. -/
def isL2ETHChain (env : Env) (chainId : Nat) : Bool :=
  env.l2ETHChains.contains chainId

/-- Modelled from the spec: `BridgeUtils.isETHLikeToken` decides whether a
token is a chain-specific native-gas-equivalent variant; the member list
lives in `Env`. -/
def isETHLikeToken (env : Env) (t : Token) : Bool :=
  env.ethLikeTokenIds.contains t.id

/-- Modelled from the spec: `BridgeUtils.makeEasyParams` builds the direct
deposit/redeem parameter tuple `(destinationAddress, destinationChain,
tokenAddress, amount)`. -/
def makeEasyParams (args : BridgeTransactionParams) (chainId : Nat) (t : Token) :
    String × Nat × String × Int :=
  (args.addressTo.getD "", args.chainIdTo, t.address chainId, args.amountFrom)

/-- Modelled from the spec: `BridgeUtils.makeEasySubParams` is the
`(destinationAddress, destinationChain, tokenAddress)` prefix of the easy
parameter tuple. -/
def makeEasySubParams (args : BridgeTransactionParams) (chainId : Nat) (t : Token) :
    String × Nat × String :=
  (args.addressTo.getD "", args.chainIdTo, t.address chainId)

/-- Modelled from the spec: `BridgeUtils.depositETHParams` builds the
native-deposit parameter tuple `(destinationAddress, destinationChain,
amount)`. -/
def depositETHParams (args : BridgeTransactionParams) : String × Nat × Int :=
  (args.addressTo.getD "", args.chainIdTo, args.amountFrom)

/-- Modelled from the spec: `BridgeUtils.makeOverrides` attaches a
native-value override when requested. -/
def makeOverrides (amount : Int) (withValueOverride : Bool) : Option Int :=
  if withValueOverride then some amount else none

/-- Modelled from the spec: per-tier minimum-output threshold
`amount * (1 - toleranceBps)`. -/
def applySlippage (amount bps : Int) : Int :=
  amount * (10000 - bps) / 10000

/-- Slippage bundle returned by `BridgeUtils.getSlippages`. -/
structure Slippages where
  transactionDeadline : Int
  bridgeTransactionDeadline : Int
  minToSwapDestFromOrigin : Int
  minToSwapDest : Int
  minToSwapOriginMediumSlippage : Int
  minToSwapDestFromOriginMediumSlippage : Int
  minToSwapOriginHighSlippage : Int
  minToSwapDestFromOriginHighSlippage : Int

/-- Modelled from the spec: `BridgeUtils.getSlippages` derives an
origin-chain deadline, a (longer) bridge deadline, and minimum-output
thresholds at the low/medium/high tolerance tiers. -/
def getSlippages (cfg : SlippageConfig) (amountFrom amountTo : Int) : Slippages :=
  { transactionDeadline := cfg.now + cfg.originWindow
    bridgeTransactionDeadline := cfg.now + cfg.bridgeWindow
    minToSwapDestFromOrigin := applySlippage amountTo cfg.lowBps
    minToSwapDest := applySlippage amountTo cfg.lowBps
    minToSwapOriginMediumSlippage := applySlippage amountFrom cfg.mediumBps
    minToSwapDestFromOriginMediumSlippage := applySlippage amountTo cfg.mediumBps
    minToSwapOriginHighSlippage := applySlippage amountFrom cfg.highBps
    minToSwapDestFromOriginHighSlippage := applySlippage amountTo cfg.highBps }

end BridgeUtils

/-- TypeScript `Array.prototype.findIndex`: position of the first element
satisfying `p`, and `-1` when there is none. -/
def findIndexTS (p : Token → Bool) (l : List Token) : Int :=
  match l.findIdx? p with
  | some i => (i : Int)
  | none => -1

/-- Helper of `makeBridgeTokenArgs`: rewrite `t` to `swappy` when it equals
`check` (`checkAndChangeToken`). -/
def checkAndChangeToken (t check swappy : Token) : Token :=
  if t.isEqual check then swappy else t

/-- Helper of `makeBridgeTokenArgs` (`findSymbol`): compare a pool entry
`tokA` against the target token `tokB`, accounting for chain-specific
wrapped aliases (the Avalanche `WETH_E`/`AVWETH` pair, plain `WETH`, and
wrapped tokens resolved to their underlying). -/
def findSymbol (tokA tokB : Token) : Bool :=
  let compareId : Nat :=
    if tokB.isEqual Tokens.WETH_E then Tokens.AVWETH.id
    else if tokB.isEqual Tokens.WETH then Tokens.WETH.id
    else if tokB.isWrappedToken then tokB.underlyingId
    else tokB.id
  tokA.id == compareId

/-- Helper of `makeBridgeTokenArgs` (the `bridgeTokens` closure): normalize
the naked native-gas tokens ETH, AVAX and MOVR — selected by the source
token's swap-type category — to their wrapped pool representations. -/
def resolveBridgeTokens (args : BridgeParams) : Token × Token :=
  match args.tokenFrom.swapType with
  | SwapType.eth =>
      (checkAndChangeToken args.tokenFrom Tokens.ETH Tokens.WETH,
       checkAndChangeToken args.tokenTo Tokens.ETH Tokens.WETH)
  | SwapType.avax =>
      (checkAndChangeToken args.tokenFrom Tokens.AVAX Tokens.WAVAX,
       checkAndChangeToken args.tokenTo Tokens.AVAX Tokens.WAVAX)
  | SwapType.movr =>
      (checkAndChangeToken args.tokenFrom Tokens.MOVR Tokens.WMOVR,
       checkAndChangeToken args.tokenTo Tokens.MOVR Tokens.WMOVR)
  | _ => (args.tokenFrom, args.tokenTo)

/-- `SynapseBridge.makeBridgeTokenArgs`: normalize naked native-gas tokens to
their wrapped pool form, fetch the pool token list for each chain and
category, and locate each token's pool index via `findSymbol`.  Returns
`none` when a pool list is absent from the registry (the source throws a
`TypeError` on `undefined.findIndex`). -/
def makeBridgeTokenArgs (env : Env) (chainId : Nat) (args : BridgeParams) :
    Option BridgeTokenArgs :=
  let tokenFrom := (resolveBridgeTokens args).1
  let tokenTo := (resolveBridgeTokens args).2
  match env.swapPools chainId tokenFrom.swapType,
        env.swapPools args.chainIdTo tokenTo.swapType with
  | some fromToks, some toToks =>
      some { fromChainTokens := fromToks
             toChainTokens := toToks
             tokenFrom := tokenFrom
             tokenTo := tokenTo
             tokenIndexFrom := findIndexTS (fun tok => findSymbol tok tokenFrom) fromToks
             tokenIndexTo := findIndexTS (fun tok => findSymbol tok tokenTo) toToks }
  | _, _ => none

/-- Errors surfaced by estimation and transaction building.
`routeUnsupported` carries the reason string with which
`checkSwapSupported` rejects; `emptyDestinationAddress` is the
`"BridgeTransactionParams.addressTo cannot be empty string or undefined"`
rejection; `poolsNotFound` is the `TypeError` thrown when the pool registry
has no list for a (chain, swap type) pair; `undefinedTxn` marks the source
falling off the end of `buildETHMainnetBridgeTxn` without returning a
transaction. -/
inductive BridgeError
  | routeUnsupported (reason : String)
  | emptyDestinationAddress
  | poolsNotFound
  | undefinedTxn
  deriving DecidableEq, Repr

/-- Read-only collaborator (network) calls issued while estimating. -/
inductive CollabCall
  | feeQuery (tokenAddr : String) (chainTo : Nat) (scaledAmount : Int)
  | liquidityDeposit (amounts : List Int)
  | swapQuery (tokenAddr : String) (idxFrom : Int) (idxTo : Int) (amountIn : Int)
  | removeLiquidityOne (amountIn : Int) (idxTo : Int)
  deriving DecidableEq, Repr

/-- Swap-math (pool/liquidity) queries are every collaborator call except the
fee-oracle query. -/
def CollabCall.isSwapMath : CollabCall → Bool
  | .feeQuery _ _ _ => false
  | _ => true

/-- Computation stages of `buildBridgeTokenTransaction`, recorded in order:
token-argument resolution (`makeBridgeTokenArgs`), slippage math
(`BridgeUtils.getSlippages`), and the selection of a concrete call shape. -/
inductive BuildStep
  | resolveTokens
  | slippageMath
  | shapeSelected
  deriving DecidableEq, Repr

/-- Output estimate (`BridgeOutputEstimate`). -/
structure BridgeOutputEstimate where
  amountToReceive : Int
  bridgeFee : Int
  deriving DecidableEq, Repr

/-- A populated bridge transaction: one contract-call shape with its exact
ordered parameters, mirroring the `populateTransaction` calls of the
source. -/
inductive TxnCall
  | deposit (toAddr : String) (chainTo : Nat) (tokenAddr : String) (amount : Int)
  | redeem (toAddr : String) (chainTo : Nat) (tokenAddr : String) (amount : Int)
  | depositETH (toAddr : String) (chainTo : Nat) (amount : Int) (value : Int)
  | zapAndDeposit (toAddr : String) (chainTo : Nat) (tokenAddr : String)
      (liquidityAmounts : List Int) (minToSwapDest : Int) (deadline : Int)
  | depositETHAndSwap (toAddr : String) (chainTo : Nat) (amount : Int)
      (idxFrom : Int) (idxTo : Int) (minDy : Int) (deadline : Int) (value : Int)
  | zapAndDepositAndSwap (toAddr : String) (chainTo : Nat) (tokenAddr : String)
      (liquidityAmounts : List Int) (minToSwapOrigin : Int) (deadline : Int)
      (idxFrom : Int) (idxTo : Int) (minDy : Int) (bridgeDeadline : Int)
  | swapAndRedeem (toAddr : String) (chainTo : Nat) (tokenAddr : String)
      (idxFrom : Int) (idxTo : Int) (amount : Int) (minAmount : Int) (deadline : Int)
  | redeemAndSwap (toAddr : String) (chainTo : Nat) (tokenAddr : String)
      (amount : Int) (idxFrom : Int) (idxTo : Int) (minDy : Int) (deadline : Int)
  | swapAndRedeemAndSwap (toAddr : String) (chainTo : Nat) (tokenAddr : String)
      (idxFrom : Int) (idxMid : Int) (amount : Int) (minOrigin : Int) (deadline : Int)
      (idxMidDest : Int) (idxTo : Int) (minDy : Int) (bridgeDeadline : Int)
      (value : Option Int)
  | swapETHAndRedeem (toAddr : String) (chainTo : Nat) (tokenAddr : String)
      (idxFrom : Int) (idxTo : Int) (amount : Int) (minAmount : Int) (deadline : Int)
      (value : Int)
  | swapETHAndRedeemAndSwap (toAddr : String) (chainTo : Nat) (tokenAddr : String)
      (idxFrom : Int) (idxMid : Int) (amount : Int) (minOrigin : Int) (deadline : Int)
      (idxMidDest : Int) (idxTo : Int) (minDy : Int) (bridgeDeadline : Int)
      (value : Int)
  | redeemAndRemove (toAddr : String) (chainTo : Nat) (tokenAddr : String)
      (amount : Int) (idxTo : Int) (minAmount : Int) (deadline : Int)
  | swapAndRedeemAndRemove (toAddr : String) (chainTo : Nat) (tokenAddr : String)
      (idxFrom : Int) (idxMid : Int) (amount : Int) (minOrigin : Int) (deadline : Int)
      (idxTo : Int) (minDy : Int) (bridgeDeadline : Int)
  deriving DecidableEq, Repr

/-- Single-step direct-route shapes: plain `deposit`, `redeem`, or
`depositETH` (the shapes emitted by the easy-route gate). -/
def TxnCall.isDirectRoute : TxnCall → Bool
  | .deposit _ _ _ _ => true
  | .redeem _ _ _ _ => true
  | .depositETH _ _ _ _ => true
  | _ => false

/-- Direct-redeem shape. -/
def TxnCall.isRedeemShape : TxnCall → Bool
  | .redeem _ _ _ _ => true
  | _ => false

/-- Swap-then-redeem shapes: one origin-side pool swap (`swapAndRedeem`) or
its native-value variant (`swapETHAndRedeem`) followed by the redeem. -/
def TxnCall.isSwapThenRedeemShape : TxnCall → Bool
  | .swapAndRedeem _ _ _ _ _ _ _ _ => true
  | .swapETHAndRedeem _ _ _ _ _ _ _ _ _ => true
  | _ => false

/-- Zap-and-deposit shape (liquidity-based deposit on the canonical chain). -/
def TxnCall.isZapAndDepositShape : TxnCall → Bool
  | .zapAndDeposit _ _ _ _ _ _ => true
  | _ => false

/-- Swap-and-redeem shape. -/
def TxnCall.isSwapAndRedeemShape : TxnCall → Bool
  | .swapAndRedeem _ _ _ _ _ _ _ _ => true
  | _ => false

/-- The destination address is empty or absent
(`(!addressTo) || addressTo === ""`). -/
def emptyAddressTo : Option String → Bool
  | none => true
  | some s => s == ""

/-- `SynapseBridge.checkEasyArgs`: if the destination token's id belongs to
one of the three easy membership lists, emit the corresponding single-step
shape; the lists are checked in the source's order (redeems, deposits,
depositETH). -/
def checkEasyArgs (args : BridgeTransactionParams) (chainId : Nat)
    (easyDeposits easyRedeems easyDepositETH : List Nat) : Option TxnCall :=
  let params := BridgeUtils.makeEasyParams args chainId args.tokenTo
  if easyRedeems.contains args.tokenTo.id then
    some (.redeem params.1 params.2.1 params.2.2.1 params.2.2.2)
  else if easyDeposits.contains args.tokenTo.id then
    some (.deposit params.1 params.2.1 params.2.2.1 params.2.2.2)
  else if easyDepositETH.contains args.tokenTo.id then
    let dp := BridgeUtils.depositETHParams args
    some (.depositETH dp.1 dp.2.1 dp.2.2 args.amountFrom)
  else none

/-- Easy membership lists built by `buildETHMainnetBridgeTxn`, as
`(easyDeposits, easyRedeems, easyDepositETH)`: SYN redeems; HIGH, DOG, FRAX
deposit; NETH deposits natively; NUSD is appended to the deposits only when
the source token is NUSD itself. -/
def ethMainnetEasySets (args : BridgeTransactionParams) :
    List Nat × List Nat × List Nat :=
  let easyRedeems := [Tokens.SYN.id]
  let easyDeposits := [Tokens.HIGH.id, Tokens.DOG.id, Tokens.FRAX.id]
    ++ (if args.tokenFrom.isEqual Tokens.NUSD then [Tokens.NUSD.id] else [])
  let easyDepositETH := [Tokens.NETH.id]
  (easyDeposits, easyRedeems, easyDepositETH)

/-- One iteration of the `BridgeUtils.DepositIfChainTokens.forEach` loop of
`buildL2BridgeTxn`, threading the `(easyDeposits, easyRedeems,
easyDepositETH)` accumulator. -/
def depositIfStep (chainId : Nat) (acc : List Nat × List Nat × List Nat)
    (a : DepositIfChainArgs) : List Nat × List Nat × List Nat :=
  let tokenHashes := a.tokens.map Token.id
  if chainId = a.chainId then
    if a.depositEth then (acc.1, acc.2.1, acc.2.2 ++ tokenHashes)
    else (acc.1 ++ tokenHashes, acc.2.1, acc.2.2)
  else
    match a.altChainId with
    | some alt =>
        if chainId = alt then (acc.1, acc.2.1 ++ tokenHashes, acc.2.2)
        else (acc.1, acc.2.1, acc.2.2)
    | none => (acc.1, acc.2.1 ++ tokenHashes, acc.2.2)

/-- Easy membership lists built by `buildL2BridgeTxn`, as `(easyDeposits,
easyRedeems, easyDepositETH)`: SYN, HIGH, DOG, FRAX redeem; NUSD is appended
to the redeems only when the source token is NUSD itself; the
`DepositIfChainTokens` table then contributes per-chain deposit/redeem
entries. -/
def l2EasySets (env : Env) (chainId : Nat) (args : BridgeTransactionParams) :
    List Nat × List Nat × List Nat :=
  let easyDeposits : List Nat := []
  let easyRedeems := [Tokens.SYN.id, Tokens.HIGH.id, Tokens.DOG.id, Tokens.FRAX.id]
    ++ (if args.tokenFrom.isEqual Tokens.NUSD then [Tokens.NUSD.id] else [])
  let easyDepositETH : List Nat := []
  env.depositIfChainTokens.foldl (depositIfStep chainId)
    (easyDeposits, easyRedeems, easyDepositETH)

/-- `SynapseBridge.buildETHMainnetBridgeTxn`: easy-route gate first, then the
NUSD / ETH-like / general composite branches, together with the build steps
performed (slippage math runs before the shape switch whenever the easy gate
does not fire). -/
def buildETHMainnetBridgeTxn (env : Env) (chainId : Nat)
    (args : BridgeTransactionParams) (tokenArgs : BridgeTokenArgs) :
    Except BridgeError TxnCall × List BuildStep :=
  let sets := ethMainnetEasySets args
  match checkEasyArgs args chainId sets.1 sets.2.1 sets.2.2 with
  | some txn => (.ok txn, [.shapeSelected])
  | none =>
    let s := BridgeUtils.getSlippages env.slippageConfig args.amountFrom args.amountTo
    let addrTo := args.addressTo.getD ""
    if args.tokenTo.id = Tokens.NUSD.id then
      if args.tokenFrom.isEqual Tokens.NUSD then
        (.error .undefinedTxn, [.slippageMath])
      else
        let liquidityAmounts := tokenArgs.fromChainTokens.map
          (fun t => if args.tokenFrom.isEqual t then args.amountFrom else 0)
        (.ok (.zapAndDeposit addrTo args.chainIdTo (Tokens.NUSD.address chainId)
            liquidityAmounts s.minToSwapDest s.transactionDeadline),
         [.slippageMath, .shapeSelected])
    else
      if BridgeUtils.isETHLikeToken env args.tokenTo
          || args.tokenTo.isEqual Tokens.WETH then
        let dp := BridgeUtils.depositETHParams args
        (.ok (.depositETHAndSwap dp.1 dp.2.1 dp.2.2 0 tokenArgs.tokenIndexTo
            s.minToSwapDestFromOrigin s.bridgeTransactionDeadline args.amountFrom),
         [.slippageMath, .shapeSelected])
      else
        let liquidityAmounts := tokenArgs.fromChainTokens.map
          (fun t => if args.tokenFrom.isEqual t then args.amountFrom else 0)
        (.ok (.zapAndDepositAndSwap addrTo args.chainIdTo (Tokens.NUSD.address chainId)
            liquidityAmounts s.minToSwapOriginMediumSlippage s.transactionDeadline
            0 tokenArgs.tokenIndexTo s.minToSwapDestFromOriginMediumSlippage
            s.bridgeTransactionDeadline),
         [.slippageMath, .shapeSelected])

/-- `SynapseBridge.buildL2BridgeTxn`: AVWETH is first rewritten to WETH_E in
the resolved token arguments, the easy-route gate runs over the L2 membership
lists, and the composite branches then mirror the source's nested switches
(NUSD and GMX destinations, then the destination-chain role, then the origin
token category). -/
def buildL2BridgeTxn (env : Env) (chainId : Nat)
    (args : BridgeTransactionParams) (tokenArgs0 : BridgeTokenArgs) :
    Except BridgeError TxnCall × List BuildStep :=
  let tokenArgs := { tokenArgs0 with
    tokenFrom := if tokenArgs0.tokenFrom.isEqual Tokens.AVWETH then Tokens.WETH_E
                 else tokenArgs0.tokenFrom }
  let sets := l2EasySets env chainId args
  match checkEasyArgs args chainId sets.1 sets.2.1 sets.2.2 with
  | some txn => (.ok txn, [.shapeSelected])
  | none =>
    let s := BridgeUtils.getSlippages env.slippageConfig args.amountFrom args.amountTo
    let easyRedeemAndSwap := fun (baseToken : Token) =>
      let p := BridgeUtils.makeEasyParams args chainId baseToken
      TxnCall.redeemAndSwap p.1 p.2.1 p.2.2.1 p.2.2.2
        0 tokenArgs.tokenIndexTo s.minToSwapDest s.transactionDeadline
    let easySwapAndRedeemAndSwap := fun (baseToken : Token) (withValueOverride : Bool) =>
      let p := BridgeUtils.makeEasySubParams args chainId baseToken
      TxnCall.swapAndRedeemAndSwap p.1 p.2.1 p.2.2
        tokenArgs.tokenIndexFrom 0 args.amountFrom s.minToSwapOriginHighSlippage
        s.transactionDeadline 0 tokenArgs.tokenIndexTo
        s.minToSwapDestFromOriginHighSlippage s.bridgeTransactionDeadline
        (BridgeUtils.makeOverrides args.amountFrom withValueOverride)
    if args.tokenTo.id = Tokens.NUSD.id then
      let p := BridgeUtils.makeEasySubParams args chainId Tokens.NUSD
      (.ok (.swapAndRedeem p.1 p.2.1 p.2.2 tokenArgs.tokenIndexFrom 0
          args.amountFrom s.minToSwapOriginHighSlippage s.transactionDeadline),
       [.slippageMath, .shapeSelected])
    else if args.tokenTo.id = Tokens.GMX.id then
      let p := BridgeUtils.makeEasyParams args chainId Tokens.GMX
      if chainId = ChainId.ARBITRUM then
        (.ok (.deposit p.1 p.2.1 p.2.2.1 p.2.2.2), [.slippageMath, .shapeSelected])
      else
        (.ok (.redeem p.1 p.2.1 (Tokens.GMX.wrapperAddress chainId) p.2.2.2),
         [.slippageMath, .shapeSelected])
    else
      if args.chainIdTo = ChainId.ETH then
        if BridgeUtils.isL2ETHChain env chainId then
          if args.tokenFrom.isEqual Tokens.NETH then
            let p := BridgeUtils.makeEasyParams args chainId Tokens.NETH
            (.ok (.redeem p.1 p.2.1 p.2.2.1 p.2.2.2), [.slippageMath, .shapeSelected])
          else if BridgeUtils.isETHLikeToken env args.tokenFrom then
            let p := BridgeUtils.makeEasySubParams args chainId Tokens.NETH
            (.ok (.swapAndRedeem p.1 p.2.1 p.2.2 tokenArgs.tokenIndexFrom 0
                args.amountFrom s.minToSwapOriginHighSlippage s.transactionDeadline),
             [.slippageMath, .shapeSelected])
          else
            let p := BridgeUtils.makeEasySubParams args chainId Tokens.NETH
            (.ok (.swapETHAndRedeem p.1 p.2.1 p.2.2 tokenArgs.tokenIndexFrom 0
                args.amountFrom s.minToSwapOriginHighSlippage s.transactionDeadline
                args.amountFrom),
             [.slippageMath, .shapeSelected])
        else if args.tokenFrom.isEqual Tokens.NUSD then
          let p := BridgeUtils.makeEasySubParams args chainId Tokens.NUSD
          (.ok (.redeemAndRemove p.1 p.2.1 p.2.2 args.amountFrom
              tokenArgs.tokenIndexTo s.minToSwapDest s.transactionDeadline),
           [.slippageMath, .shapeSelected])
        else
          let p := BridgeUtils.makeEasySubParams args chainId Tokens.NUSD
          (.ok (.swapAndRedeemAndRemove p.1 p.2.1 p.2.2 tokenArgs.tokenIndexFrom 0
              args.amountFrom s.minToSwapOriginHighSlippage s.transactionDeadline
              tokenArgs.tokenIndexTo s.minToSwapDestFromOriginHighSlippage
              s.bridgeTransactionDeadline),
           [.slippageMath, .shapeSelected])
      else
        if args.tokenFrom.isEqual Tokens.NUSD then
          (.ok (easyRedeemAndSwap Tokens.NUSD), [.slippageMath, .shapeSelected])
        else if args.tokenFrom.isEqual Tokens.NETH then
          (.ok (easyRedeemAndSwap Tokens.NETH), [.slippageMath, .shapeSelected])
        else if args.tokenFrom.swapType = SwapType.eth then
          if BridgeUtils.isETHLikeToken env args.tokenFrom then
            (.ok (easySwapAndRedeemAndSwap Tokens.NETH false),
             [.slippageMath, .shapeSelected])
          else
            let p := BridgeUtils.makeEasySubParams args chainId Tokens.NETH
            (.ok (.swapETHAndRedeemAndSwap p.1 p.2.1 p.2.2 tokenArgs.tokenIndexFrom 0
                args.amountFrom s.minToSwapOriginHighSlippage s.transactionDeadline
                0 tokenArgs.tokenIndexTo s.minToSwapDestFromOriginHighSlippage
                s.bridgeTransactionDeadline args.amountFrom),
             [.slippageMath, .shapeSelected])
        else
          (.ok (easySwapAndRedeemAndSwap Tokens.NUSD false),
           [.slippageMath, .shapeSelected])

/-- `SynapseBridge.buildBridgeTokenTransaction`: resolve the token arguments
(this runs before anything else), reject on an empty or absent destination
address, then dispatch on the chain role (canonical mainnet vs any other
chain).  The returned step list records the order in which the computation
stages were performed. -/
def buildBridgeTokenTransaction (env : Env) (chainId : Nat)
    (args : BridgeTransactionParams) :
    Except BridgeError TxnCall × List BuildStep :=
  match makeBridgeTokenArgs env chainId args.toBridgeParams with
  | none => (.error .poolsNotFound, [.resolveTokens])
  | some tokenArgs =>
    if emptyAddressTo args.addressTo then
      (.error .emptyDestinationAddress, [.resolveTokens])
    else
      let args1 := { args with
        tokenFrom := tokenArgs.tokenFrom, tokenTo := tokenArgs.tokenTo }
      let r :=
        if chainId = ChainId.ETH then buildETHMainnetBridgeTxn env chainId args1 tokenArgs
        else buildL2BridgeTxn env chainId args1 tokenArgs
      (r.1, .resolveTokens :: r.2)

/-- Origin-side converted amount: the first `switch (true)` of
`calculateBridgeRate`, evaluated in the source's case order (zero amount,
ETH-to-ETH pass-through, mint/burn pass-through, wrapped pass-through,
canonical-chain liquidity deposit, otherwise a pool swap to the intermediate
token's index 0).  Returns the amount together with the swap-math calls
issued. -/
def originSideAmount (env : Env) (chainId : Nat) (args : BridgeParams)
    (ta : BridgeTokenArgs) (intermediateToken : Token) (ethToEth : Bool) :
    Int × List CollabCall :=
  if args.amountFrom = 0 then (0, [])
  else if ethToEth then (args.amountFrom, [])
  else if Tokens.isMintBurnToken ta.tokenFrom then (args.amountFrom, [])
  else if ta.tokenFrom.isWrappedToken then (args.amountFrom, [])
  else if chainId = ChainId.ETH then
    let liquidityAmounts := ta.fromChainTokens.map
      (fun t => if ta.tokenFrom.isEqual t then args.amountFrom else 0)
    (env.calculateTokenAmount liquidityAmounts true,
     [.liquidityDeposit liquidityAmounts])
  else
    let a := intermediateToken.address chainId
    (env.calculateSwapL2Zap a ta.tokenIndexFrom 0 args.amountFrom,
     [.swapQuery a ta.tokenIndexFrom 0 args.amountFrom])

/-- Destination-side amount: the second `switch (true)` of
`calculateBridgeRate`, the mirror image of `originSideAmount` (zero
fee-adjusted amount, ETH-from-ETH pass-through, mint/burn pass-through,
wrapped pass-through, canonical-chain liquidity removal, otherwise a pool
swap from the intermediate token's index 0). -/
def destSideAmount (env : Env) (args : BridgeParams) (ta : BridgeTokenArgs)
    (intermediateToken : Token) (ethFromEth : Bool) (afterFee : Int) :
    Int × List CollabCall :=
  if afterFee = 0 then (0, [])
  else if ethFromEth then (afterFee, [])
  else if Tokens.isMintBurnToken ta.tokenTo then (afterFee, [])
  else if ta.tokenTo.isWrappedToken then (afterFee, [])
  else if args.chainIdTo = ChainId.ETH then
    (env.calculateRemoveLiquidityOneToken afterFee ta.tokenIndexTo,
     [.removeLiquidityOne afterFee ta.tokenIndexTo])
  else
    let a := intermediateToken.address args.chainIdTo
    (env.calculateSwapL2Zap a 0 ta.tokenIndexTo afterFee,
     [.swapQuery a 0 ta.tokenIndexTo afterFee])

/-- `checkEthy` of `calculateBridgeRate`: the chain is an ETH-gas peripheral
chain and the token belongs to the ETH swap category. -/
def checkEthy (env : Env) (c : Nat) (t : Token) : Bool :=
  BridgeUtils.isL2ETHChain env c && t.swapType == SwapType.eth

/-- `SynapseBridge.calculateBridgeRate`: resolve token arguments, issue the
fee-oracle query (with the bridge-config intermediate token's
destination-chain address and the amount scaled to 18 decimals), compute the
origin-side amount, await the fee — resolving to `none` (the source's silent
`return null`) when the fee query failed — subtract the fee clamped at zero,
and compute the destination-side amount.  The second component is the list of
collaborator calls issued, in order. -/
def calculateBridgeRate (env : Env) (chainId : Nat) (args : BridgeParams) :
    Except BridgeError (Option BridgeOutputEstimate) × List CollabCall :=
  match makeBridgeTokenArgs env chainId args with
  | none => (.error .poolsNotFound, [])
  | some ta =>
    let inter := env.intermediateTokens args.chainIdTo args.tokenFrom
    let intermediateToken := inter.1
    let bridgeConfigIntermediateToken := inter.2
    let feeAddr := bridgeConfigIntermediateToken.address args.chainIdTo
    let feeAmount := args.amountFrom * (10 : Int) ^ (18 - ta.tokenFrom.decimals chainId)
    let bridgeFeeRes := env.calculateSwapFee feeAddr args.chainIdTo feeAmount
    let ethToEth := chainId == ChainId.ETH && checkEthy env args.chainIdTo ta.tokenTo
    let ethFromEth := args.chainIdTo == ChainId.ETH && checkEthy env chainId ta.tokenFrom
    let fromPair := originSideAmount env chainId args ta intermediateToken ethToEth
    match bridgeFeeRes with
    | none => (.ok none, .feeQuery feeAddr args.chainIdTo feeAmount :: fromPair.2)
    | some bridgeFee =>
      let afterFee := BridgeUtils.subBigNumSafe fromPair.1 bridgeFee
      let toPair := destSideAmount env args ta intermediateToken ethFromEth afterFee
      (.ok (some { amountToReceive := toPair.1, bridgeFee := bridgeFee }),
       .feeQuery feeAddr args.chainIdTo feeAmount :: (fromPair.2 ++ toPair.2))

/-- `SynapseBridge.swapSupported`: delegate to
`TokenSwap.bridgeSwapSupported` with this bridge's chain as the source
chain. -/
def swapSupported (env : Env) (chainId : Nat) (args : BridgeParams) :
    Bool × String :=
  env.bridgeSwapSupported chainId args.chainIdTo args.tokenFrom args.tokenTo

/-- `SynapseBridge.estimateBridgeTokenOutput`: check swap support first and
reject with the unsupported reason before issuing any collaborator call;
otherwise run `calculateBridgeRate`. -/
def estimateBridgeTokenOutput (env : Env) (chainId : Nat) (args : BridgeParams) :
    Except BridgeError (Option BridgeOutputEstimate) × List CollabCall :=
  if (swapSupported env chainId args).1 then calculateBridgeRate env chainId args
  else (.error (.routeUnsupported (swapSupported env chainId args).2), [])

/-- Chains on which a token whose symbol is `"ETH"` is always supported
(`ETH_TOKEN_CHAINS` in `common/networks.ts`). -/
def ETH_TOKEN_CHAINS : List Nat :=
  [ChainId.ETH, ChainId.BOBA, ChainId.ARBITRUM]

/-- A supported network: chain id plus the token-address list loaded from the
swap-pool registry at construction (`Networks.Network`). -/
structure Network where
  name : String
  chainId : Nat
  tokenAddresses : List String

/-- `Networks.Network.supportsToken`: tokens whose symbol is `"ETH"` are
always supported on the chains of `ETH_TOKEN_CHAINS`; otherwise the token's
address on this chain must appear in the network's token-address list. -/
def Network.supportsToken (n : Network) (t : Token) : Bool :=
  if t.symbol == "ETH" && ETH_TOKEN_CHAINS.contains n.chainId then true
  else n.tokenAddresses.contains (t.address n.chainId)

/-- The static per-chain required-confirmation table (`REQUIRED_CONFS`). -/
def REQUIRED_CONFS : List (Nat × Int) :=
  [(ChainId.ETH, 7), (ChainId.OPTIMISM, 1), (ChainId.BSC, 14),
   (ChainId.POLYGON, 128), (ChainId.FANTOM, 5), (ChainId.BOBA, 1),
   (ChainId.MOONBEAM, 21), (ChainId.MOONRIVER, 21), (ChainId.ARBITRUM, 40),
   (ChainId.AVALANCHE, 5), (ChainId.HARMONY, 1)]

/-- `getRequiredConfirmationsForBridge`: static table lookup with the `-1`
"unknown" sentinel for chains absent from the table (`?? -1`). -/
def getRequiredConfirmationsForBridge (chainId : Nat) : Int :=
  match REQUIRED_CONFS.lookup chainId with
  | some n => n
  | none => -1

/-- Deployment slippage configuration used by the concrete test fixtures. -/
def baseSlippage : SlippageConfig :=
  { now := 1000, originWindow := 600, bridgeWindow := 1200,
    lowBps := 50, mediumBps := 100, highBps := 200 }

/-- Concrete collaborator environment used by the test fixtures: every route
supported, a constant fee of 1, simple constant pool math, NUSD as the
intermediate token, empty pool lists, no `DepositIfChainTokens` entries,
WETH_E as the single ETH-like variant, and Optimism/Boba/Arbitrum as the
ETH-gas peripheral chains. -/
def baseEnv : Env :=
  { bridgeSwapSupported := fun _ _ _ _ => (true, "")
    calculateSwapFee := fun _ _ _ => some 1
    calculateTokenAmount := fun _ _ => 42
    calculateSwapL2Zap := fun _ _ _ _ => 43
    calculateRemoveLiquidityOneToken := fun _ _ => 44
    intermediateTokens := fun _ _ => (Tokens.NUSD, Tokens.NUSD)
    swapPools := fun _ _ => some []
    depositIfChainTokens := []
    ethLikeTokenIds := [Tokens.WETH_E.id]
    l2ETHChains := [ChainId.OPTIMISM, ChainId.BOBA, ChainId.ARBITRUM]
    slippageConfig := baseSlippage }

/-- Environment in which no route is supported. -/
def envC1 : Env :=
  { baseEnv with bridgeSwapSupported := fun _ _ _ _ => (false, "swap not supported") }

/-- Environment in which the fee-oracle query always fails. -/
def envC2 : Env :=
  { baseEnv with calculateSwapFee := fun _ _ _ => none }

/-- Environment with a constant fee of 5. -/
def envFee5 : Env :=
  { baseEnv with calculateSwapFee := fun _ _ _ => some 5 }

/-- Environment whose ETH-category pool on every chain is `[NETH, AVWETH]`. -/
def envC8 : Env :=
  { baseEnv with swapPools := fun _ st =>
      if st = SwapType.eth then some [Tokens.NETH, Tokens.AVWETH] else some [] }

/-- Transaction request: FRAX on mainnet to SYN on BSC, 100 in, valid
destination address. -/
def argsC1 : BridgeTransactionParams :=
  { tokenFrom := Tokens.FRAX, tokenTo := Tokens.SYN, chainIdTo := ChainId.BSC,
    amountFrom := 100, amountTo := 95, addressTo := some "0xdest" }

/-- Estimation request: FRAX to FRAX on BSC, 100 in. -/
def argsC2 : BridgeParams :=
  { tokenFrom := Tokens.FRAX, tokenTo := Tokens.FRAX, chainIdTo := ChainId.BSC,
    amountFrom := 100 }

/-- Transaction request with an empty destination address. -/
def argsC3 : BridgeTransactionParams :=
  { tokenFrom := Tokens.FRAX, tokenTo := Tokens.SYN, chainIdTo := ChainId.BSC,
    amountFrom := 100, amountTo := 95, addressTo := some "" }

/-- Resolved token arguments for `argsC3` under `baseEnv` (empty pools,
indices `-1`). -/
def taC3 : BridgeTokenArgs :=
  { fromChainTokens := [], toChainTokens := [], tokenFrom := Tokens.FRAX,
    tokenTo := Tokens.SYN, tokenIndexFrom := -1, tokenIndexTo := -1 }

/-- Estimation request with a zero origin amount. -/
def argsC4 : BridgeParams :=
  { tokenFrom := Tokens.FRAX, tokenTo := Tokens.FRAX, chainIdTo := ChainId.BSC,
    amountFrom := 0 }

/-- Transaction request: NETH on Arbitrum back to WETH on mainnet. -/
def argsC6 : BridgeTransactionParams :=
  { tokenFrom := Tokens.NETH, tokenTo := Tokens.WETH, chainIdTo := ChainId.ETH,
    amountFrom := 100, amountTo := 95, addressTo := some "0xdest" }

/-- Transaction request: WETH_E (an ETH-like variant) on Arbitrum back to
WETH on mainnet. -/
def argsC6b : BridgeTransactionParams :=
  { argsC6 with tokenFrom := Tokens.WETH_E }

/-- Transaction request: FRAX to NUSD (destination is the stable asset while
the source is not). -/
def argsC7 : BridgeTransactionParams :=
  { tokenFrom := Tokens.FRAX, tokenTo := Tokens.NUSD, chainIdTo := ChainId.BSC,
    amountFrom := 100, amountTo := 95, addressTo := some "0xdest" }

/-- Estimation request whose source token is the Avalanche WETH_E variant. -/
def argsC8 : BridgeParams :=
  { tokenFrom := Tokens.WETH_E, tokenTo := Tokens.NETH, chainIdTo := ChainId.ETH,
    amountFrom := 100 }

/-- Mainnet network fixture with an empty token-address list. -/
def netETHFixture : Network :=
  { name := "Ethereum Mainnet", chainId := ChainId.ETH, tokenAddresses := [] }

/-- BSC network fixture with an empty token-address list. -/
def netBSCFixture : Network :=
  { name := "Binance Smart Chain", chainId := ChainId.BSC, tokenAddresses := [] }

/-- Resolved token arguments for the FRAX-to-FRAX fixtures under the empty
pool registry. -/
def taC4 : BridgeTokenArgs :=
  { fromChainTokens := [], toChainTokens := [], tokenFrom := Tokens.FRAX,
    tokenTo := Tokens.FRAX, tokenIndexFrom := -1, tokenIndexTo := -1 }

lemma subBigNumSafe_eq_max (a b : Int) :
    BridgeUtils.subBigNumSafe a b = max (a - b) 0 := by
  unfold BridgeUtils.subBigNumSafe
  split <;> omega

/-- C1 (amended): for every request for which the route-support check
returns `(false, reason)`, `estimateBridgeTokenOutput` fails with
`RouteUnsupported` carrying that reason and issues zero collaborator calls;
the eligibility check short-circuits before any network call. -/
theorem c1_estimate_short_circuit (env : Env) (chainId : Nat)
    (args : BridgeParams) (r : String)
    (h : swapSupported env chainId args = (false, r)) :
    estimateBridgeTokenOutput env chainId args =
      (.error (.routeUnsupported r), []) := by
  simp [estimateBridgeTokenOutput, h]

/-- Witness for C1: a concrete unsupported request on which the estimate
rejects with the reason and an empty call trace. -/
theorem c1_witness :
    swapSupported envC1 ChainId.ETH argsC1.toBridgeParams =
      (false, "swap not supported") ∧
    estimateBridgeTokenOutput envC1 ChainId.ETH argsC1.toBridgeParams =
      (.error (.routeUnsupported "swap not supported"), []) :=
  ⟨rfl, c1_estimate_short_circuit envC1 ChainId.ETH argsC1.toBridgeParams
    "swap not supported" rfl⟩

/-- Counterexample for C1 as stated: on a request whose route-support check
returns `false`, `buildBridgeTokenTransaction` does not fail with
`RouteUnsupported` — it performs no eligibility check at all and happily
returns a populated redeem transaction. -/
theorem c1_counterexample :
    (swapSupported envC1 ChainId.ETH argsC1.toBridgeParams).1 = false ∧
    (buildBridgeTokenTransaction envC1 ChainId.ETH argsC1).1 =
      .ok (.redeem "0xdest" ChainId.BSC "SYN@1" 100) :=
  ⟨rfl, rfl⟩

/-- C2: on a supported request whose fee-oracle query fails,
`estimateBridgeTokenOutput` resolves to the silent null result (`Except.ok
none`) instead of a typed fee-query error — the defect the claim (and the
spec's design intent) rules out. -/
theorem c2_fee_failure_returns_null :
    (swapSupported envC2 ChainId.AVALANCHE argsC2).1 = true ∧
    estimateBridgeTokenOutput envC2 ChainId.AVALANCHE argsC2 =
      (.ok none, [.feeQuery "nUSD@56" ChainId.BSC 100]) :=
  ⟨rfl, rfl⟩

/-- C3 (amended): for every building request with an empty or absent
destination address (whose token-argument resolution succeeds),
`buildBridgeTokenTransaction` fails with `EmptyDestinationAddress` before any
shape selection or slippage math — but after token resolution and pool
indexing, which `makeBridgeTokenArgs` performs first. -/
theorem c3_empty_address (env : Env) (chainId : Nat)
    (args : BridgeTransactionParams) (ta : BridgeTokenArgs)
    (hres : makeBridgeTokenArgs env chainId args.toBridgeParams = some ta)
    (haddr : emptyAddressTo args.addressTo = true) :
    buildBridgeTokenTransaction env chainId args =
      (.error .emptyDestinationAddress, [BuildStep.resolveTokens]) := by
  simp [buildBridgeTokenTransaction, hres, haddr]

/-- Witness for C3: a concrete empty-address request failing with
`EmptyDestinationAddress` after token resolution only. -/
theorem c3_witness :
    makeBridgeTokenArgs baseEnv ChainId.ETH argsC3.toBridgeParams = some taC3 ∧
    emptyAddressTo argsC3.addressTo = true ∧
    buildBridgeTokenTransaction baseEnv ChainId.ETH argsC3 =
      (.error .emptyDestinationAddress, [BuildStep.resolveTokens]) :=
  ⟨rfl, rfl, c3_empty_address baseEnv ChainId.ETH argsC3 taC3 rfl rfl⟩

/-- Counterexample for C3 as stated: on a concrete empty-address request the
failure is `EmptyDestinationAddress`, but the build trace already contains
the token-resolution/pool-indexing step — the failure does not come before
that computation. -/
theorem c3_counterexample :
    buildBridgeTokenTransaction baseEnv ChainId.ETH argsC3 =
      (.error .emptyDestinationAddress, [BuildStep.resolveTokens]) ∧
    ((buildBridgeTokenTransaction baseEnv ChainId.ETH argsC3).2.contains
      BuildStep.resolveTokens) = true :=
  ⟨rfl, rfl⟩

/-- C9: `getRequiredConfirmationsForBridge` returns the fixed positive
integer 7 for the canonical chain (Ethereum mainnet), and the `-1` "unknown"
sentinel — rather than failing — for every chain absent from the static
`REQUIRED_CONFS` table. -/
theorem c9_required_confirmations :
    (getRequiredConfirmationsForBridge ChainId.ETH = 7 ∧
     0 < getRequiredConfirmationsForBridge ChainId.ETH) ∧
    ∀ chainId : Nat, REQUIRED_CONFS.lookup chainId = none →
      getRequiredConfirmationsForBridge chainId = -1 := by
  refine ⟨⟨rfl, by decide⟩, ?_⟩
  intro c hc
  simp [getRequiredConfirmationsForBridge, hc]

/-- Witness for C9: chain id 999 is absent from the table and maps to the
sentinel. -/
theorem c9_witness :
    REQUIRED_CONFS.lookup 999 = none ∧
    getRequiredConfirmationsForBridge 999 = -1 :=
  ⟨by decide, c9_required_confirmations.2 999 (by decide)⟩

/-- C10: for every token whose symbol is `"ETH"`, `Network.supportsToken`
returns `true` on the Ethereum, Boba and Arbitrum networks regardless of the
token-address list, and on every other network the result is exactly
membership of the token's address in that list. -/
theorem c10_supports_eth_token (n : Network) (t : Token)
    (h : t.symbol = "ETH") :
    (ETH_TOKEN_CHAINS.contains n.chainId = true → n.supportsToken t = true) ∧
    (ETH_TOKEN_CHAINS.contains n.chainId = false →
      n.supportsToken t = n.tokenAddresses.contains (t.address n.chainId)) := by
  constructor <;> intro hc <;> simp at hc <;> simp [Network.supportsToken, h, hc]

/-- Witness for C10: the naked ETH token is supported on the mainnet network
even with an empty token-address list, while on BSC the result equals the
(empty) membership test. -/
theorem c10_witness :
    Tokens.ETH.symbol = "ETH" ∧
    netETHFixture.supportsToken Tokens.ETH = true ∧
    netBSCFixture.supportsToken Tokens.ETH =
      netBSCFixture.tokenAddresses.contains (Tokens.ETH.address ChainId.BSC) :=
  ⟨rfl,
   (c10_supports_eth_token netETHFixture Tokens.ETH rfl).1 rfl,
   (c10_supports_eth_token netBSCFixture Tokens.ETH rfl).2 rfl⟩

lemma originSideAmount_zero (env : Env) (chainId : Nat) (args : BridgeParams)
    (ta : BridgeTokenArgs) (it : Token) (e : Bool)
    (h : args.amountFrom = 0) :
    originSideAmount env chainId args ta it e = (0, []) := by
  simp [originSideAmount, h]

lemma originSideAmount_passthrough (env : Env) (chainId : Nat)
    (args : BridgeParams) (ta : BridgeTokenArgs) (it : Token) (e : Bool)
    (h : Tokens.isMintBurnToken ta.tokenFrom = true ∨
         ta.tokenFrom.isWrappedToken = true) :
    originSideAmount env chainId args ta it e = (args.amountFrom, []) := by
  unfold originSideAmount
  by_cases h0 : args.amountFrom = 0
  · simp [h0]
  · by_cases he : e <;> rcases h with h | h <;> simp [h0, he, h]

lemma destSideAmount_zero (env : Env) (args : BridgeParams)
    (ta : BridgeTokenArgs) (it : Token) (e : Bool) :
    destSideAmount env args ta it e 0 = (0, []) := by
  simp [destSideAmount]

lemma destSideAmount_passthrough (env : Env) (args : BridgeParams)
    (ta : BridgeTokenArgs) (it : Token) (e : Bool) (v : Int)
    (h : Tokens.isMintBurnToken ta.tokenTo = true ∨
         ta.tokenTo.isWrappedToken = true) :
    destSideAmount env args ta it e v = (v, []) := by
  unfold destSideAmount
  by_cases h0 : v = 0
  · simp [h0]
  · by_cases he : e <;> rcases h with h | h <;> simp [h0, he, h]

/-- C4: for every supported request with a zero origin amount (whose token
resolution succeeds and whose fee oracle answers with a non-negative fee),
`estimateBridgeTokenOutput` returns `amountToReceive = 0` and issues no
swap-math (pool/liquidity) query — the trace holds only the fee query. -/
theorem c4_zero_amount (env : Env) (chainId : Nat) (args : BridgeParams)
    (ta : BridgeTokenArgs) (f : Int)
    (hsup : (swapSupported env chainId args).1 = true)
    (hres : makeBridgeTokenArgs env chainId args = some ta)
    (hfee : ∀ a c amt, env.calculateSwapFee a c amt = some f)
    (hf : 0 ≤ f)
    (hamt : args.amountFrom = 0) :
    (estimateBridgeTokenOutput env chainId args).1 =
      .ok (some { amountToReceive := 0, bridgeFee := f }) ∧
    ((estimateBridgeTokenOutput env chainId args).2.all
      fun c => !c.isSwapMath) = true := by
  have hsub : BridgeUtils.subBigNumSafe 0 f = 0 := by
    unfold BridgeUtils.subBigNumSafe
    split <;> omega
  simp [estimateBridgeTokenOutput, hsup, calculateBridgeRate, hres, hfee,
    originSideAmount_zero, hamt, hsub, destSideAmount_zero, CollabCall.isSwapMath]

/-- Witness for C4: the concrete zero-amount FRAX request under the
constant-fee environment. -/
theorem c4_witness :
    (swapSupported envFee5 ChainId.AVALANCHE argsC4).1 = true ∧
    makeBridgeTokenArgs envFee5 ChainId.AVALANCHE argsC4 = some taC4 ∧
    argsC4.amountFrom = 0 ∧
    (estimateBridgeTokenOutput envFee5 ChainId.AVALANCHE argsC4).1 =
      .ok (some { amountToReceive := 0, bridgeFee := 5 }) ∧
    ((estimateBridgeTokenOutput envFee5 ChainId.AVALANCHE argsC4).2.all
      fun c => !c.isSwapMath) = true := by
  refine ⟨rfl, rfl, rfl, ?_⟩
  exact c4_zero_amount envFee5 ChainId.AVALANCHE argsC4 taC4 5 rfl rfl
    (fun _ _ _ => rfl) (by decide) rfl

/-- C5: for every supported request whose resolved source and destination
tokens are both mint/burn or wrapped-category tokens, the estimate is exactly
the origin amount minus the bridge fee clamped at zero, with no pool math
applied (no swap-math collaborator call). -/
theorem c5_mintburn_wrapped (env : Env) (chainId : Nat) (args : BridgeParams)
    (ta : BridgeTokenArgs) (f : Int)
    (hsup : (swapSupported env chainId args).1 = true)
    (hres : makeBridgeTokenArgs env chainId args = some ta)
    (hfee : ∀ a c amt, env.calculateSwapFee a c amt = some f)
    (hfrom : Tokens.isMintBurnToken ta.tokenFrom = true ∨
             ta.tokenFrom.isWrappedToken = true)
    (hto : Tokens.isMintBurnToken ta.tokenTo = true ∨
           ta.tokenTo.isWrappedToken = true) :
    (estimateBridgeTokenOutput env chainId args).1 =
      .ok (some { amountToReceive := max (args.amountFrom - f) 0, bridgeFee := f }) ∧
    ((estimateBridgeTokenOutput env chainId args).2.all
      fun c => !c.isSwapMath) = true := by
  have ho : ∀ it e, originSideAmount env chainId args ta it e = (args.amountFrom, []) :=
    fun it e => originSideAmount_passthrough env chainId args ta it e hfrom
  have hd : ∀ it e v, destSideAmount env args ta it e v = (v, []) :=
    fun it e v => destSideAmount_passthrough env args ta it e v hto
  simp [estimateBridgeTokenOutput, hsup, calculateBridgeRate, hres, hfee,
    ho, hd, subBigNumSafe_eq_max, CollabCall.isSwapMath]

/-- Witness for C5: 100 FRAX (mint/burn on both legs) with a fee of 5 yields
exactly `max (100 - 5) 0 = 95` with a fee-query-only trace. -/
theorem c5_witness :
    (swapSupported envFee5 ChainId.AVALANCHE argsC2).1 = true ∧
    makeBridgeTokenArgs envFee5 ChainId.AVALANCHE argsC2 = some taC4 ∧
    Tokens.isMintBurnToken taC4.tokenFrom = true ∧
    Tokens.isMintBurnToken taC4.tokenTo = true ∧
    (estimateBridgeTokenOutput envFee5 ChainId.AVALANCHE argsC2).1 =
      .ok (some { amountToReceive := max (argsC2.amountFrom - 5) 0, bridgeFee := 5 }) ∧
    ((estimateBridgeTokenOutput envFee5 ChainId.AVALANCHE argsC2).2.all
      fun c => !c.isSwapMath) = true := by
  refine ⟨rfl, rfl, rfl, rfl, ?_⟩
  exact c5_mintburn_wrapped envFee5 ChainId.AVALANCHE argsC2 taC4 5 rfl rfl
    (fun _ _ _ => rfl) (Or.inl rfl) (Or.inl rfl)

lemma checkEasyArgs_eq_none (args : BridgeTransactionParams) (chainId : Nat)
    (d r de : List Nat)
    (h1 : d.contains args.tokenTo.id = false)
    (h2 : r.contains args.tokenTo.id = false)
    (h3 : de.contains args.tokenTo.id = false) :
    checkEasyArgs args chainId d r de = none := by
  simp at h1 h2 h3
  simp [checkEasyArgs, h1, h2, h3]

/-- C6: bridging back to the canonical chain from an ETH-gas peripheral
chain, with a destination token outside the easy membership sets and not the
NUSD/GMX special cases, `buildL2BridgeTxn` selects the direct-redeem shape
exactly when the source token is the canonical bridge wrapped-native
representation NETH, and a swap-then-redeem shape (`swapAndRedeem` for an
ETH-like variant, `swapETHAndRedeem` otherwise) for every other source
token. -/
theorem c6_native_gas_return_shapes (env : Env) (chainId : Nat)
    (args : BridgeTransactionParams) (ta : BridgeTokenArgs)
    (hd : (l2EasySets env chainId args).1.contains args.tokenTo.id = false)
    (hr : (l2EasySets env chainId args).2.1.contains args.tokenTo.id = false)
    (hde : (l2EasySets env chainId args).2.2.contains args.tokenTo.id = false)
    (hnusd : args.tokenTo.id ≠ Tokens.NUSD.id)
    (hgmx : args.tokenTo.id ≠ Tokens.GMX.id)
    (hdest : args.chainIdTo = ChainId.ETH)
    (hl2 : BridgeUtils.isL2ETHChain env chainId = true)
    (hty : args.tokenFrom.swapType = SwapType.eth) :
    (buildL2BridgeTxn env chainId args ta).1.toOption.map TxnCall.isRedeemShape =
      some (args.tokenFrom.isEqual Tokens.NETH) ∧
    (buildL2BridgeTxn env chainId args ta).1.toOption.map TxnCall.isSwapThenRedeemShape =
      some (!args.tokenFrom.isEqual Tokens.NETH) := by
  have hnone : checkEasyArgs args chainId (l2EasySets env chainId args).1
      (l2EasySets env chainId args).2.1 (l2EasySets env chainId args).2.2 = none :=
    checkEasyArgs_eq_none args chainId _ _ _ hd hr hde
  by_cases hN : args.tokenFrom.isEqual Tokens.NETH
  · simp [buildL2BridgeTxn, hnone, hnusd, hgmx, hdest, hl2, hN, Except.toOption,
      TxnCall.isRedeemShape, TxnCall.isSwapThenRedeemShape]
  · by_cases hE : BridgeUtils.isETHLikeToken env args.tokenFrom
    · simp [buildL2BridgeTxn, hnone, hnusd, hgmx, hdest, hl2, hN, hE, Except.toOption,
        TxnCall.isRedeemShape, TxnCall.isSwapThenRedeemShape]
    · simp [buildL2BridgeTxn, hnone, hnusd, hgmx, hdest, hl2, hN, hE, Except.toOption,
        TxnCall.isRedeemShape, TxnCall.isSwapThenRedeemShape]

/-- Witness for C6: from Arbitrum (an ETH-gas chain) to WETH on mainnet,
source NETH yields the direct redeem while source WETH_E (an ETH-like
variant) yields a swap-then-redeem shape. -/
theorem c6_witness :
    (buildL2BridgeTxn baseEnv ChainId.ARBITRUM argsC6 taC4).1.toOption.map
      TxnCall.isRedeemShape = some true ∧
    (buildL2BridgeTxn baseEnv ChainId.ARBITRUM argsC6b taC4).1.toOption.map
      TxnCall.isRedeemShape = some false ∧
    (buildL2BridgeTxn baseEnv ChainId.ARBITRUM argsC6b taC4).1.toOption.map
      TxnCall.isSwapThenRedeemShape = some true :=
  ⟨(c6_native_gas_return_shapes baseEnv ChainId.ARBITRUM argsC6 taC4 rfl rfl rfl
      (by decide) (by decide) rfl rfl rfl).1,
   (c6_native_gas_return_shapes baseEnv ChainId.ARBITRUM argsC6b taC4 rfl rfl rfl
      (by decide) (by decide) rfl rfl rfl).1,
   (c6_native_gas_return_shapes baseEnv ChainId.ARBITRUM argsC6b taC4 rfl rfl rfl
      (by decide) (by decide) rfl rfl rfl).2⟩

lemma depositIfStep_not_mem (chainId x : Nat)
    (acc : List Nat × List Nat × List Nat) (a : DepositIfChainArgs)
    (h1 : x ∉ acc.1) (h2 : x ∉ acc.2.1) (h3 : x ∉ acc.2.2)
    (ha : x ∉ a.tokens.map Token.id) :
    x ∉ (depositIfStep chainId acc a).1 ∧
    x ∉ (depositIfStep chainId acc a).2.1 ∧
    x ∉ (depositIfStep chainId acc a).2.2 := by
  unfold depositIfStep
  by_cases hc : chainId = a.chainId
  · rw [if_pos hc]
    by_cases hdep : a.depositEth = true
    · rw [if_pos hdep]
      exact ⟨h1, h2, List.not_mem_append h3 ha⟩
    · rw [if_neg hdep]
      exact ⟨List.not_mem_append h1 ha, h2, h3⟩
  · rw [if_neg hc]
    cases halt : a.altChainId with
    | some alt =>
        dsimp only
        by_cases hca : chainId = alt
        · rw [if_pos hca]
          exact ⟨h1, List.not_mem_append h2 ha, h3⟩
        · rw [if_neg hca]
          exact ⟨h1, h2, h3⟩
    | none =>
        exact ⟨h1, List.not_mem_append h2 ha, h3⟩

lemma depositIf_foldl_not_mem (chainId x : Nat) (l : List DepositIfChainArgs)
    (init : List Nat × List Nat × List Nat)
    (h1 : x ∉ init.1) (h2 : x ∉ init.2.1) (h3 : x ∉ init.2.2)
    (hl : ∀ a ∈ l, x ∉ a.tokens.map Token.id) :
    x ∉ (l.foldl (depositIfStep chainId) init).1 ∧
    x ∉ (l.foldl (depositIfStep chainId) init).2.1 ∧
    x ∉ (l.foldl (depositIfStep chainId) init).2.2 := by
  induction l generalizing init with
  | nil => exact ⟨h1, h2, h3⟩
  | cons a as ih =>
      have hstep := depositIfStep_not_mem chainId x init a h1 h2 h3
        (hl a (List.mem_cons_self _ _))
      exact ih (depositIfStep chainId init a) hstep.1 hstep.2.1 hstep.2.2
        (fun b hb => hl b (List.mem_cons_of_mem _ hb))

lemma depositIfStep_redeems_mono (chainId x : Nat)
    (acc : List Nat × List Nat × List Nat) (a : DepositIfChainArgs)
    (h : x ∈ acc.2.1) :
    x ∈ (depositIfStep chainId acc a).2.1 := by
  unfold depositIfStep
  by_cases hc : chainId = a.chainId
  · rw [if_pos hc]
    by_cases hdep : a.depositEth = true
    · rw [if_pos hdep]
      exact h
    · rw [if_neg hdep]
      exact h
  · rw [if_neg hc]
    cases halt : a.altChainId with
    | some alt =>
        dsimp only
        by_cases hca : chainId = alt
        · rw [if_pos hca]
          exact List.mem_append_left _ h
        · rw [if_neg hca]
          exact h
    | none =>
        exact List.mem_append_left _ h

lemma depositIf_foldl_redeems_mono (chainId x : Nat)
    (l : List DepositIfChainArgs) (init : List Nat × List Nat × List Nat)
    (h : x ∈ init.2.1) :
    x ∈ (l.foldl (depositIfStep chainId) init).2.1 := by
  induction l generalizing init with
  | nil => exact h
  | cons a as ih =>
      exact ih (depositIfStep chainId init a)
        (depositIfStep_redeems_mono chainId x init a h)

lemma contains_eq_true_of_mem {x : Nat} {l : List Nat} (h : x ∈ l) :
    l.contains x = true :=
  List.elem_iff.mpr h

lemma contains_eq_false_of_not_mem {x : Nat} {l : List Nat} (h : x ∉ l) :
    l.contains x = false := by
  simpa using h

/-- C7: the stable asset NUSD is appended to the easy-route membership set
(the mainnet direct-deposit set, the L2 direct-redeem set) exactly when the
source token is NUSD itself; with any other source token, a request whose
destination token is NUSD does not take a single-step direct shape — it gets
`zapAndDeposit` on mainnet and `swapAndRedeem` on an L2 chain. -/
theorem c7_nusd_self_route (env : Env) (chainId : Nat)
    (args : BridgeTransactionParams) (ta : BridgeTokenArgs)
    (hdic : ∀ a ∈ env.depositIfChainTokens, Tokens.NUSD.id ∉ a.tokens.map Token.id) :
    ((ethMainnetEasySets args).1.contains Tokens.NUSD.id =
      args.tokenFrom.isEqual Tokens.NUSD) ∧
    ((l2EasySets env chainId args).2.1.contains Tokens.NUSD.id =
      args.tokenFrom.isEqual Tokens.NUSD) ∧
    (args.tokenFrom.isEqual Tokens.NUSD = false →
     args.tokenTo.id = Tokens.NUSD.id →
      ((buildETHMainnetBridgeTxn env ChainId.ETH args ta).1.toOption.map
         TxnCall.isDirectRoute = some false ∧
       (buildETHMainnetBridgeTxn env ChainId.ETH args ta).1.toOption.map
         TxnCall.isZapAndDepositShape = some true ∧
       (buildL2BridgeTxn env chainId args ta).1.toOption.map
         TxnCall.isDirectRoute = some false ∧
       (buildL2BridgeTxn env chainId args ta).1.toOption.map
         TxnCall.isSwapAndRedeemShape = some true)) := by
  refine ⟨?_, ?_, ?_⟩
  · by_cases hf : args.tokenFrom.isEqual Tokens.NUSD
    · rw [hf]
      simp [ethMainnetEasySets, hf]
    · rw [Bool.eq_false_iff.mpr hf]
      simp [ethMainnetEasySets, hf]
      decide
  · by_cases hf : args.tokenFrom.isEqual Tokens.NUSD
    · rw [hf]
      simp only [l2EasySets, hf, if_true]
      apply contains_eq_true_of_mem
      apply depositIf_foldl_redeems_mono
      decide
    · rw [Bool.eq_false_iff.mpr hf]
      simp only [l2EasySets, hf, if_false]
      apply contains_eq_false_of_not_mem
      refine (depositIf_foldl_not_mem chainId Tokens.NUSD.id env.depositIfChainTokens
        _ ?_ ?_ ?_ hdic).2.1
      · simp
      · decide
      · simp
  · intro hf hto
    have hnone1 : checkEasyArgs args ChainId.ETH (ethMainnetEasySets args).1
        (ethMainnetEasySets args).2.1 (ethMainnetEasySets args).2.2 = none := by
      apply checkEasyArgs_eq_none <;> rw [hto] <;> simp [ethMainnetEasySets, hf] <;>
        decide
    have hfold := depositIf_foldl_not_mem chainId Tokens.NUSD.id
      env.depositIfChainTokens ([], [Tokens.SYN.id, Tokens.HIGH.id, Tokens.DOG.id,
        Tokens.FRAX.id] ++ (if args.tokenFrom.isEqual Tokens.NUSD then
        [Tokens.NUSD.id] else []), []) (by simp) (by simp [hf]; decide) (by simp) hdic
    have hnone2 : checkEasyArgs args chainId (l2EasySets env chainId args).1
        (l2EasySets env chainId args).2.1 (l2EasySets env chainId args).2.2 = none := by
      apply checkEasyArgs_eq_none <;> rw [hto] <;>
        simp only [l2EasySets] <;> apply contains_eq_false_of_not_mem
      · exact hfold.1
      · exact hfold.2.1
      · exact hfold.2.2
    refine ⟨?_, ?_, ?_, ?_⟩
    · simp [buildETHMainnetBridgeTxn, hnone1, hto, hf, Except.toOption,
        TxnCall.isDirectRoute]
    · simp [buildETHMainnetBridgeTxn, hnone1, hto, hf, Except.toOption,
        TxnCall.isZapAndDepositShape]
    · simp [buildL2BridgeTxn, hnone2, hto, Except.toOption, TxnCall.isDirectRoute]
    · simp [buildL2BridgeTxn, hnone2, hto, Except.toOption, TxnCall.isSwapAndRedeemShape]

/-- Witness for C7: with FRAX as the source token, NUSD is in neither easy
set and the NUSD-destination request selects the composite shapes, while
switching the source token to NUSD itself puts NUSD into both sets. -/
theorem c7_witness :
    (ethMainnetEasySets argsC7).1.contains Tokens.NUSD.id = false ∧
    (l2EasySets baseEnv ChainId.AVALANCHE argsC7).2.1.contains Tokens.NUSD.id = false ∧
    (ethMainnetEasySets { argsC7 with tokenFrom := Tokens.NUSD }).1.contains
      Tokens.NUSD.id = true ∧
    (l2EasySets baseEnv ChainId.AVALANCHE { argsC7 with tokenFrom := Tokens.NUSD }).2.1.contains
      Tokens.NUSD.id = true ∧
    (buildETHMainnetBridgeTxn baseEnv ChainId.ETH argsC7 taC4).1.toOption.map
      TxnCall.isDirectRoute = some false ∧
    (buildETHMainnetBridgeTxn baseEnv ChainId.ETH argsC7 taC4).1.toOption.map
      TxnCall.isZapAndDepositShape = some true ∧
    (buildL2BridgeTxn baseEnv ChainId.AVALANCHE argsC7 taC4).1.toOption.map
      TxnCall.isDirectRoute = some false ∧
    (buildL2BridgeTxn baseEnv ChainId.AVALANCHE argsC7 taC4).1.toOption.map
      TxnCall.isSwapAndRedeemShape = some true := by
  have hdic : ∀ a ∈ baseEnv.depositIfChainTokens,
      Tokens.NUSD.id ∉ a.tokens.map Token.id :=
    fun a ha => absurd ha (List.not_mem_nil a)
  have p1 := c7_nusd_self_route baseEnv ChainId.AVALANCHE argsC7 taC4 hdic
  have p2 := c7_nusd_self_route baseEnv ChainId.AVALANCHE
    { argsC7 with tokenFrom := Tokens.NUSD } taC4 hdic
  exact ⟨p1.1, p1.2.1, p2.1, p2.2.1, (p1.2.2 rfl rfl).1, (p1.2.2 rfl rfl).2.1,
    (p1.2.2 rfl rfl).2.2.1, (p1.2.2 rfl rfl).2.2.2⟩

lemma findSymbol_weth_e (t : Token) :
    findSymbol t Tokens.WETH_E = t.isEqual Tokens.AVWETH := rfl

lemma findIndexTS_congr (p q : Token → Bool) (l : List Token)
    (h : ∀ t, p t = q t) : findIndexTS p l = findIndexTS q l := by
  have hpq : p = q := funext h
  rw [hpq]

lemma findIndexTS_nonneg (p : Token → Bool) (l : List Token)
    (h : l.any p = true) : 0 ≤ findIndexTS p l := by
  unfold findIndexTS
  cases hf : l.findIdx? p with
  | some i => simp
  | none =>
      rw [List.findIdx?_eq_none_iff] at hf
      rcases List.any_eq_true.mp h with ⟨t, ht, hpt⟩
      exact absurd hpt (by simp [hf t ht])

lemma makeBridgeTokenArgs_found (env : Env) (chainId : Nat) (args : BridgeParams)
    (toksF toksT : List Token)
    (hpf : env.swapPools chainId (resolveBridgeTokens args).1.swapType = some toksF)
    (hpt : env.swapPools args.chainIdTo (resolveBridgeTokens args).2.swapType = some toksT) :
    makeBridgeTokenArgs env chainId args = some
      { fromChainTokens := toksF
        toChainTokens := toksT
        tokenFrom := (resolveBridgeTokens args).1
        tokenTo := (resolveBridgeTokens args).2
        tokenIndexFrom := findIndexTS
          (fun tok => findSymbol tok (resolveBridgeTokens args).1) toksF
        tokenIndexTo := findIndexTS
          (fun tok => findSymbol tok (resolveBridgeTokens args).2) toksT } := by
  unfold makeBridgeTokenArgs
  dsimp only
  rw [hpf, hpt]

lemma resolveBridgeTokens_weth_e (args : BridgeParams)
    (h : args.tokenFrom = Tokens.WETH_E) :
    (resolveBridgeTokens args).1 = Tokens.WETH_E := by
  simp [resolveBridgeTokens, h, Tokens.WETH_E, checkAndChangeToken,
    Token.isEqual, Tokens.ETH]

/-- C8: a request whose source token is the chain-specific wrapped alias
WETH_E resolves, during token-argument resolution, to the pool index of its
aliased peer AVWETH (the entry `findSymbol` compares it against); whenever
the peer is present in the pool the resolved index is non-negative rather
than the `-1` not-found sentinel. -/
theorem c8_wrapped_alias_pool_index (env : Env) (chainId : Nat)
    (args : BridgeParams) (toksF toksT : List Token)
    (hfrom : args.tokenFrom = Tokens.WETH_E)
    (hpf : env.swapPools chainId SwapType.eth = some toksF)
    (hpt : env.swapPools args.chainIdTo
      (resolveBridgeTokens args).2.swapType = some toksT) :
    ((makeBridgeTokenArgs env chainId args).map BridgeTokenArgs.tokenIndexFrom =
      some (findIndexTS (fun t => t.isEqual Tokens.AVWETH) toksF)) ∧
    (toksF.any (fun t => t.isEqual Tokens.AVWETH) = true →
      0 ≤ findIndexTS (fun t => t.isEqual Tokens.AVWETH) toksF) := by
  have hres := resolveBridgeTokens_weth_e args hfrom
  have hpf2 : env.swapPools chainId (resolveBridgeTokens args).1.swapType = some toksF := by
    rw [hres]
    exact hpf
  constructor
  · rw [makeBridgeTokenArgs_found env chainId args toksF toksT hpf2 hpt]
    simp only [Option.map_some']
    rw [hres]
    exact congrArg some (findIndexTS_congr _ _ _ (fun t => findSymbol_weth_e t))
  · exact fun h => findIndexTS_nonneg _ _ h

/-- Witness for C8: with the ETH-category pool `[NETH, AVWETH]`, the WETH_E
request resolves to index 1 — AVWETH's own position — and the index is
non-negative. -/
theorem c8_witness :
    (makeBridgeTokenArgs envC8 ChainId.AVALANCHE argsC8).map
      BridgeTokenArgs.tokenIndexFrom =
      some (findIndexTS (fun t => t.isEqual Tokens.AVWETH)
        [Tokens.NETH, Tokens.AVWETH]) ∧
    findIndexTS (fun t => t.isEqual Tokens.AVWETH) [Tokens.NETH, Tokens.AVWETH] = 1 ∧
    0 ≤ findIndexTS (fun t => t.isEqual Tokens.AVWETH) [Tokens.NETH, Tokens.AVWETH] :=
  ⟨(c8_wrapped_alias_pool_index envC8 ChainId.AVALANCHE argsC8
      [Tokens.NETH, Tokens.AVWETH] [Tokens.NETH, Tokens.AVWETH] rfl rfl rfl).1,
   rfl,
   (c8_wrapped_alias_pool_index envC8 ChainId.AVALANCHE argsC8
      [Tokens.NETH, Tokens.AVWETH] [Tokens.NETH, Tokens.AVWETH] rfl rfl rfl).2 rfl⟩
